import Mathlib

/-!
Verification of the MVR (Machine Vision Robot) control loop, `src/MVR.py`.

The per-frame control flow is embedded as pure functions over explicit state:
the two persisted servo angles (`pan_angle`, `tilt_angle`), the persisted
`last_area`, and the motor pin state. Python integers become `ℤ`; Python's
floor division `//` becomes `Int.fdiv`; Python's `x in range(lo, hi)` for an
integer `x` becomes `inRange x lo hi` (that is, `lo ≤ x < hi`). Motor and
servo side effects are reified: each frame returns the list of drive commands
it issued, tagged with the function that issued them, and counters for the
servo writes.
-/

namespace MVR

/-- Constants from the source (`LOW_AREA = 8000`, etc.). -/
def LOW_AREA : ℤ := 8000

def HIGH_AREA : ℤ := 11000

def CENTER_CX : ℤ := 150

def CENTER_CY : ℤ := 115

def CENTERED_CX_THRESHOLD : ℤ := 20

def CENTERED_CY_THRESHOLD : ℤ := 20

def LOW_ANGLE : ℤ := 60

def HIGH_ANGLE : ℤ := 120

def PARALLEL_LOW : ℤ := 75

def PARALLEL_HIGH : ℤ := 105

/-- Python `x in range(lo, hi)` for an integer `x`: membership in `[lo, hi)`. -/
def inRange (x lo hi : ℤ) : Bool := decide (lo ≤ x) && decide (x < hi)

/-- A detected blob: centroid and pixel area, as the control logic reads them
(`the_blob.cx()`, `the_blob.cy()`, `the_blob.area()` are integers). -/
structure Blob where
  cx : ℤ
  cy : ℤ
  area : ℤ
deriving Repr, DecidableEq

/-- The discrete drive commands the code can issue: `stop()`, `pivot_right()`,
`pivot_left()`, `reverse()`, `forward()`. -/
inductive Cmd
  | stop
  | pivotRight
  | pivotLeft
  | reverse
  | forward
deriving Repr, DecidableEq

/-- The site in the code that issued a drive command: `check_pan_extreme`,
`check_tilt_extreme`, `sense_area` (the distance controller), or the main
loop's empty-detection branch. -/
inductive Src
  | panChk
  | tiltChk
  | distCtl
  | mainLoop
deriving Repr, DecidableEq

/-- The six motor control pins: LEFT_MOTOR1/2, LEFT_ENABLE, RIGHT_MOTOR1/2,
RIGHT_ENABLE (`true` = high). -/
structure MotorState where
  leftM1 : Bool
  leftM2 : Bool
  leftEn : Bool
  rightM1 : Bool
  rightM2 : Bool
  rightEn : Bool
deriving Repr, DecidableEq

/-- `left_motor(direction)`: sets the left h-bridge pins by the sign of
`direction` and drives LEFT_ENABLE high. -/
def left_motor (direction : ℤ) (m : MotorState) : MotorState :=
  if direction < 0 then
    { m with leftM1 := true, leftM2 := false, leftEn := true }
  else
    { m with leftM1 := false, leftM2 := true, leftEn := true }

/-- `right_motor(direction)`: sets the right h-bridge pins by the sign of
`direction` and drives RIGHT_ENABLE high. -/
def right_motor (direction : ℤ) (m : MotorState) : MotorState :=
  if direction < 0 then
    { m with rightM1 := false, rightM2 := true, rightEn := true }
  else
    { m with rightM1 := true, rightM2 := false, rightEn := true }

/-- Effect of one drive command on the motor pins, exactly as the
corresponding function body performs it: `stop()` drives both ENABLE pins
low; the other four call `left_motor` and `right_motor` with `±1`. -/
def applyCmd (m : MotorState) : Cmd → MotorState
  | Cmd.stop => { m with rightEn := false, leftEn := false }
  | Cmd.pivotRight => right_motor 1 (left_motor (-1) m)
  | Cmd.pivotLeft => right_motor (-1) (left_motor 1 m)
  | Cmd.reverse => right_motor (-1) (left_motor (-1) m)
  | Cmd.forward => right_motor 1 (left_motor 1 m)

/-- `is_parallel()`: `pan_angle in range(PARALLEL_LOW, PARALLEL_HIGH)`. -/
def is_parallel (pan_angle : ℤ) : Bool :=
  inRange pan_angle PARALLEL_LOW PARALLEL_HIGH

/-- `check_pan_extreme()`: pivot right below `LOW_ANGLE`, pivot left above
`HIGH_ANGLE`, otherwise stop. Reads the pan angle current at call time. -/
def check_pan_extreme (pan_angle : ℤ) : List (Src × Cmd) :=
  if pan_angle < LOW_ANGLE then [(Src.panChk, Cmd.pivotRight)]
  else if pan_angle > HIGH_ANGLE then [(Src.panChk, Cmd.pivotLeft)]
  else [(Src.panChk, Cmd.stop)]

/-- `check_tilt_extreme()`: reverse when `tilt_angle not in
range(LOW_ANGLE, HIGH_ANGLE)`, otherwise stop. -/
def check_tilt_extreme (tilt_angle : ℤ) : List (Src × Cmd) :=
  if inRange tilt_angle LOW_ANGLE HIGH_ANGLE then [(Src.tiltChk, Cmd.stop)]
  else [(Src.tiltChk, Cmd.reverse)]

/-- `pan_adjust(deltaX)`: `pan_angle += deltaX // 12`, then clamp to
`[0, 179]`; returns the angle written to the servo. -/
def pan_adjust (pan_angle deltaX : ℤ) : ℤ :=
  if pan_angle + Int.fdiv deltaX 12 < 0 then 0
  else if pan_angle + Int.fdiv deltaX 12 > 179 then 179
  else pan_angle + Int.fdiv deltaX 12

/-- `tiltAdjust(deltaY)`: `tilt_angle -= deltaY // 12`, then clamp to
`[0, 149]`; returns the angle written to the servo. -/
def tiltAdjust (tilt_angle deltaY : ℤ) : ℤ :=
  if tilt_angle - Int.fdiv deltaY 12 < 0 then 0
  else if tilt_angle - Int.fdiv deltaY 12 > 149 then 149
  else tilt_angle - Int.fdiv deltaY 12

/-- `center_cx(the_blob)`: result is the pan angle after the call, the drive
commands issued, and the number of pan-servo writes. Inside the deadzone it
returns at once; otherwise it runs `check_pan_extreme()` on the current pan
angle and then `pan_adjust(off_center)`. -/
def center_cx (pan_angle : ℤ) (b : Blob) : ℤ × List (Src × Cmd) × ℕ :=
  if |CENTER_CX - b.cx| < CENTERED_CX_THRESHOLD then (pan_angle, [], 0)
  else (pan_adjust pan_angle (CENTER_CX - b.cx), check_pan_extreme pan_angle, 1)

/-- `center_cy(the_blob)`: as `center_cx`, for the tilt axis, with
`check_tilt_extreme()` and `tiltAdjust(off_center)`. -/
def center_cy (tilt_angle : ℤ) (b : Blob) : ℤ × List (Src × Cmd) × ℕ :=
  if |CENTER_CY - b.cy| < CENTERED_CY_THRESHOLD then (tilt_angle, [], 0)
  else (tiltAdjust tilt_angle (CENTER_CY - b.cy), check_tilt_extreme tilt_angle, 1)

/-- `sense_area(the_blob)`: updates `last_area` and, when `is_parallel()`
holds, drives reverse above `HIGH_AREA`, forward below `LOW_AREA`, and stop
when the area is `in range(LOW_AREA, HIGH_AREA)`. Result is the new
`last_area` and the drive commands issued. The computed `delta_a` feeds no
branch. -/
def sense_area (pan_angle last_area : ℤ) (b : Blob) : ℤ × List (Src × Cmd) :=
  (b.area,
    if is_parallel pan_angle && !(inRange b.area LOW_AREA HIGH_AREA) then
      if b.area > HIGH_AREA then [(Src.distCtl, Cmd.reverse)]
      else if b.area < LOW_AREA then [(Src.distCtl, Cmd.forward)]
      else []
    else if is_parallel pan_angle && inRange b.area LOW_AREA HIGH_AREA then
      [(Src.distCtl, Cmd.stop)]
    else [])

/-- The main loop's frame selector: start from the first blob and keep any
blob whose area strictly exceeds the current candidate's. -/
def selectBlob (blobs : List Blob) : Option Blob :=
  match blobs with
  | [] => none
  | b :: rest =>
      some (List.foldl (fun acc x => if acc.area < x.area then x else acc) b (b :: rest))

/-- Everything one loop iteration leaves behind: the persisted angles and
`last_area`, the drive commands issued (in order), and the servo writes. -/
structure FrameResult where
  pan : ℤ
  tilt : ℤ
  lastArea : ℤ
  events : List (Src × Cmd)
  panServoWrites : ℕ
  tiltServoWrites : ℕ
deriving Repr, DecidableEq

/-- One iteration of the main loop: on an empty blob list, `stop()` and
`continue`; otherwise select the biggest blob, then `center_cx`, `center_cy`,
`sense_area` in that order. -/
def runFrame (pan tilt lastArea : ℤ) (blobs : List Blob) : FrameResult :=
  match selectBlob blobs with
  | none => ⟨pan, tilt, lastArea, [(Src.mainLoop, Cmd.stop)], 0, 0⟩
  | some bigBlob =>
      let cxr := center_cx pan bigBlob
      let cyr := center_cy tilt bigBlob
      let sar := sense_area cxr.1 lastArea bigBlob
      ⟨cxr.1, cyr.1, sar.1, cxr.2.1 ++ cyr.2.1 ++ sar.2, cxr.2.2, cyr.2.2⟩

/-- Motor pin state at the end of a frame, folding the issued drive commands
over the state the pins had when the frame began. -/
def finalMotors (prior : MotorState) (r : FrameResult) : MotorState :=
  r.events.foldl (fun m e => applyCmd m e.2) prior

/-- The last drive command issued during the frame, if any. -/
def finalCmd (r : FrameResult) : Option Cmd :=
  (r.events.map Prod.snd).getLast?

/-- The distance controller's commands for a given pan angle and area
(`sense_area` reads only the blob's area). -/
def senseAreaEvents (pan area : ℤ) : List (Src × Cmd) :=
  (sense_area pan 0 ⟨0, 0, area⟩).2

/-- The distance controller's decision for a frame: `sense_area` issues at
most one command. -/
def senseAreaDecision (pan area : ℤ) : Option Cmd :=
  (senseAreaEvents pan area).head?.map Prod.snd

/-- Every drive command writes each motor's pins exactly once (`stop()`
writes LEFT_ENABLE; the other four call `left_motor`), so the left motor is
commanded once per issued drive command. -/
def leftMotorWrites (r : FrameResult) : ℕ := r.events.length

/-- As `leftMotorWrites`, for the right motor. -/
def rightMotorWrites (r : FrameResult) : ℕ := r.events.length

/-! ## Helper lemmas -/

lemma selectBlob_singleton (b : Blob) : selectBlob [b] = some b := by
  simp [selectBlob]

lemma runFrame_single (pan tilt lastArea : ℤ) (b : Blob) :
    runFrame pan tilt lastArea [b] =
      ⟨(center_cx pan b).1, (center_cy tilt b).1,
        (sense_area (center_cx pan b).1 lastArea b).1,
        (center_cx pan b).2.1 ++ (center_cy tilt b).2.1 ++
          (sense_area (center_cx pan b).1 lastArea b).2,
        (center_cx pan b).2.2, (center_cy tilt b).2.2⟩ := by
  rw [runFrame, selectBlob_singleton]

lemma is_parallel_iff (a : ℤ) :
    is_parallel a = true ↔ PARALLEL_LOW ≤ a ∧ a < PARALLEL_HIGH := by
  simp [is_parallel, inRange]

lemma is_parallel_false_of_lt {a : ℤ} (h : a < PARALLEL_LOW) :
    is_parallel a = false := by
  simp only [is_parallel, inRange, Bool.and_eq_false_iff, decide_eq_false_iff_not, not_le]
  exact Or.inl h

lemma sense_area_not_parallel {pan : ℤ} (h : is_parallel pan = false)
    (lastArea : ℤ) (b : Blob) : (sense_area pan lastArea b).2 = [] := by
  simp [sense_area, h]

/-- With a positive divisor, Python floor division is Lean's `Int.ediv`. -/
lemma fdiv_12_eq (a : ℤ) : Int.fdiv a 12 = a / 12 :=
  Int.fdiv_eq_ediv a (by norm_num)

/-- Any centering step derived from an error at most `150` adds at most `12`
degrees, so a pan angle below `LOW_ANGLE` stays below the parallel window
(or hits a clamp boundary, also outside it). -/
lemma pan_adjust_not_parallel {pan o : ℤ} (hp : pan < LOW_ANGLE) (ho : o ≤ 150) :
    is_parallel (pan_adjust pan o) = false := by
  have hd : Int.fdiv o 12 ≤ 12 := by rw [fdiv_12_eq]; omega
  have hp' : pan < 60 := hp
  unfold pan_adjust
  split_ifs with h1 h2
  · decide
  · omega
  · exact is_parallel_false_of_lt (by unfold PARALLEL_LOW; omega)

lemma center_cx_near {b : Blob} (h : |CENTER_CX - b.cx| < CENTERED_CX_THRESHOLD)
    (pan : ℤ) : center_cx pan b = (pan, [], 0) := by
  rw [center_cx, if_pos h]

lemma center_cx_far {b : Blob} (h : ¬ |CENTER_CX - b.cx| < CENTERED_CX_THRESHOLD)
    (pan : ℤ) :
    center_cx pan b =
      (pan_adjust pan (CENTER_CX - b.cx), check_pan_extreme pan, 1) := by
  rw [center_cx, if_neg h]

lemma center_cy_near {b : Blob} (h : |CENTER_CY - b.cy| < CENTERED_CY_THRESHOLD)
    (tilt : ℤ) : center_cy tilt b = (tilt, [], 0) := by
  rw [center_cy, if_pos h]

lemma center_cy_far {b : Blob} (h : ¬ |CENTER_CY - b.cy| < CENTERED_CY_THRESHOLD)
    (tilt : ℤ) :
    center_cy tilt b =
      (tiltAdjust tilt (CENTER_CY - b.cy), check_tilt_extreme tilt, 1) := by
  rw [center_cy, if_neg h]

lemma center_cx_shape (pan : ℤ) (b : Blob) :
    (center_cx pan b).2.1 = [] ∨
    (center_cx pan b).2.1 = [(Src.panChk, Cmd.pivotRight)] ∨
    (center_cx pan b).2.1 = [(Src.panChk, Cmd.pivotLeft)] ∨
    (center_cx pan b).2.1 = [(Src.panChk, Cmd.stop)] := by
  unfold center_cx check_pan_extreme
  split_ifs <;> simp

lemma center_cy_shape (tilt : ℤ) (b : Blob) :
    (center_cy tilt b).2.1 = [] ∨
    (center_cy tilt b).2.1 = [(Src.tiltChk, Cmd.stop)] ∨
    (center_cy tilt b).2.1 = [(Src.tiltChk, Cmd.reverse)] := by
  unfold center_cy check_tilt_extreme
  split_ifs <;> simp

lemma sense_area_shape (pan lastArea : ℤ) (b : Blob) :
    (sense_area pan lastArea b).2 = [] ∨
    (sense_area pan lastArea b).2 = [(Src.distCtl, Cmd.reverse)] ∨
    (sense_area pan lastArea b).2 = [(Src.distCtl, Cmd.forward)] ∨
    (sense_area pan lastArea b).2 = [(Src.distCtl, Cmd.stop)] := by
  unfold sense_area
  split_ifs <;> simp

/-! ## Claims -/

/-- C1, counterexample. At pan angle 90 (inside the parallel window) and area
exactly `HIGH_AREA = 11000`, `sense_area` issues no command at all — in
particular not the Stop the claim demands at the upper band endpoint:
`11000 not in range(8000, 11000)` and `11000 > 11000` is false. -/
theorem C1_endpoint_counterexample :
    is_parallel 90 = true ∧
    senseAreaDecision 90 11000 = none ∧
    ¬ senseAreaDecision 90 11000 = some Cmd.stop := by
  decide

/-- C1, amended. With the parallelism gate true, the distance controller
decides Reverse exactly when `area > 11000`, Forward exactly when
`area < 8000`, and Stop exactly when `8000 ≤ area < 11000`; at
`area = 11000` it issues no decision and the motor state is left as it was. -/
theorem C1_area_band (pan area : ℤ) (h : is_parallel pan = true) :
    (senseAreaDecision pan area = some Cmd.reverse ↔ HIGH_AREA < area) ∧
    (senseAreaDecision pan area = some Cmd.forward ↔ area < LOW_AREA) ∧
    (senseAreaDecision pan area = some Cmd.stop ↔
      LOW_AREA ≤ area ∧ area < HIGH_AREA) ∧
    (area = HIGH_AREA → senseAreaDecision pan area = none) := by
  simp only [senseAreaDecision, senseAreaEvents, sense_area, h, inRange,
    LOW_AREA, HIGH_AREA, Bool.true_and]
  split_ifs <;> simp_all <;> omega

/-- C1, witness for the amended theorem at pan 90, area 12000. -/
theorem C1_area_band_witness :
    senseAreaDecision 90 12000 = some Cmd.reverse :=
  ((C1_area_band 90 12000 (by decide)).1).mpr (by decide)

/-- C5. Both axis updates clamp: for every starting angle and every input
error, however large, the angle `pan_adjust` stores and writes lies in
`[0, 179]` and the angle `tiltAdjust` stores and writes lies in `[0, 149]`. -/
theorem C5_clamp_total (a d : ℤ) :
    (0 ≤ pan_adjust a d ∧ pan_adjust a d ≤ 179) ∧
    (0 ≤ tiltAdjust a d ∧ tiltAdjust a d ≤ 149) := by
  unfold pan_adjust tiltAdjust
  constructor <;> [skip; skip] <;> split_ifs <;> omega

/-- C6, counterexample. The claim's tilt formula `old + ((−error) // 12)`
disagrees with the code's `old − (error // 12)` under floor division: with
tilt at 90 and error 50 the code stores `90 − 4 = 86`, the claim's formula
gives `90 + (−5) = 85`. -/
theorem C6_tilt_formula_counterexample :
    tiltAdjust 90 50 = 86 ∧
    (90 : ℤ) + Int.fdiv (-50) 12 = 85 ∧
    ¬ tiltAdjust 90 50 = 90 + Int.fdiv (-50) 12 := by
  decide

/-- C6, amended. For every centering error at least the deadzone in
magnitude, the step is the floor division of the error by 12 (which keeps the
error's sign, since the magnitude exceeds 12): pan stores
`clamp (old + error // 12)`, and tilt stores `clamp (old − (error // 12))` —
not `old + ((−error) // 12)`, which is one less whenever 12 does not divide
the error. In particular pan at 90 with error 50 becomes 94. -/
theorem C6_step_rule (a e : ℤ) (h : CENTERED_CX_THRESHOLD ≤ |e|) :
    pan_adjust a e = min 179 (max 0 (a + Int.fdiv e 12)) ∧
    tiltAdjust a e = min 149 (max 0 (a - Int.fdiv e 12)) ∧
    (0 < e → 1 ≤ Int.fdiv e 12) ∧
    (e < 0 → Int.fdiv e 12 ≤ -1) ∧
    pan_adjust 90 50 = 94 := by
  have h' : CENTERED_CX_THRESHOLD ≤ e ∨ CENTERED_CX_THRESHOLD ≤ -e := le_abs.mp h
  unfold CENTERED_CX_THRESHOLD at h'
  refine ⟨?_, ?_, ?_, ?_, by decide⟩
  · unfold pan_adjust
    rw [fdiv_12_eq]
    split_ifs <;> omega
  · unfold tiltAdjust
    rw [fdiv_12_eq]
    split_ifs <;> omega
  · intro he
    rw [fdiv_12_eq]
    omega
  · intro he
    rw [fdiv_12_eq]
    omega

/-- C6, witness for the amended theorem at angle 90, error 50. -/
theorem C6_step_rule_witness :
    pan_adjust 90 50 = min 179 (max 0 (90 + Int.fdiv 50 12)) :=
  (C6_step_rule 90 50 (by decide)).1

/-- C7. `is_parallel` holds exactly on `[75, 105)` (105 excluded), and
whenever it is false the distance controller issues no decision at all for
the frame — in particular neither Forward nor Reverse, whatever the area. -/
theorem C7_parallel_window (a pan area : ℤ) :
    (is_parallel a = true ↔ PARALLEL_LOW ≤ a ∧ a < PARALLEL_HIGH) ∧
    (is_parallel pan = false → senseAreaDecision pan area = none) := by
  refine ⟨is_parallel_iff a, fun h => ?_⟩
  simp [senseAreaDecision, senseAreaEvents, sense_area_not_parallel h]

/-- C7, witness: pan angle 74 is outside the window and yields no decision
even for an out-of-band area. -/
theorem C7_parallel_window_witness :
    senseAreaDecision 74 12000 = none :=
  (C7_parallel_window 74 74 12000).2 (by decide)

/-- C2. When the pan check runs (cx deadzone exceeded) and finds the pan
angle below `LOW_ANGLE`, and the tilt check runs (cy deadzone exceeded) and
finds the tilt angle outside `[LOW_ANGLE, HIGH_ANGLE)`, the last drive
command of the frame is Reverse: pan's PivotRight is issued first, tilt's
Reverse supersedes it, and the distance controller stays silent because the
adjusted pan angle cannot reach the parallel window from below 60. -/
theorem C2_tilt_override_wins (pan tilt lastArea : ℤ) (b : Blob)
    (hcx : CENTERED_CX_THRESHOLD ≤ |CENTER_CX - b.cx|)
    (hcy : CENTERED_CY_THRESHOLD ≤ |CENTER_CY - b.cy|)
    (hpan : pan < LOW_ANGLE)
    (htilt : inRange tilt LOW_ANGLE HIGH_ANGLE = false)
    (hcx0 : 0 ≤ b.cx) :
    finalCmd (runFrame pan tilt lastArea [b]) = some Cmd.reverse := by
  have hx : ¬ |CENTER_CX - b.cx| < CENTERED_CX_THRESHOLD := not_lt.2 hcx
  have hy : ¬ |CENTER_CY - b.cy| < CENTERED_CY_THRESHOLD := not_lt.2 hcy
  have ho : CENTER_CX - b.cx ≤ 150 := by unfold CENTER_CX; omega
  have hs : is_parallel (pan_adjust pan (CENTER_CX - b.cx)) = false :=
    pan_adjust_not_parallel hpan ho
  rw [runFrame_single, finalCmd]
  simp [center_cx_far hx, center_cy_far hy, check_pan_extreme, hpan,
    check_tilt_extreme, htilt, sense_area_not_parallel hs]

/-- C2, witness: pan 50 (low extreme), tilt 130 (extreme), blob at
(100, 50) with area 9000. -/
theorem C2_tilt_override_wins_witness :
    finalCmd (runFrame 50 130 0 [⟨100, 50, 9000⟩]) = some Cmd.reverse :=
  C2_tilt_override_wins 50 130 0 ⟨100, 50, 9000⟩ (by decide) (by decide)
    (by decide) (by decide) (by decide)

/-- C3, counterexample. With pan at 50 and tilt normal (90) but the blob
already centered (cx = 150, cy = 115, area 9000), the frame issues no drive
command at all — not PivotRight — because `center_cx` returns inside the
deadzone without ever calling `check_pan_extreme`. -/
theorem C3_centered_counterexample :
    inRange 90 LOW_ANGLE HIGH_ANGLE = true ∧
    finalCmd (runFrame 50 90 0 [⟨150, 115, 9000⟩]) = none ∧
    ¬ finalCmd (runFrame 50 90 0 [⟨150, 115, 9000⟩]) = some Cmd.pivotRight := by
  decide

/-- C3, amended. With pan at 50 (below `LOW_ANGLE`), tilt not extreme, the
cx deadzone exceeded, and the cy deadzone satisfied, the frame's drive
command is PivotRight whatever the blob's area; the claim's "regardless of
cx and cy" holds only when cx keeps the pan check running and cy keeps the
tilt check (whose Stop would supersede the pivot) from running. -/
theorem C3_pan_low_pivot_right (tilt lastArea : ℤ) (b : Blob)
    (htilt : inRange tilt LOW_ANGLE HIGH_ANGLE = true)
    (hcx : CENTERED_CX_THRESHOLD ≤ |CENTER_CX - b.cx|)
    (hcy : |CENTER_CY - b.cy| < CENTERED_CY_THRESHOLD)
    (hcx0 : 0 ≤ b.cx) :
    finalCmd (runFrame 50 tilt lastArea [b]) = some Cmd.pivotRight := by
  have hx : ¬ |CENTER_CX - b.cx| < CENTERED_CX_THRESHOLD := not_lt.2 hcx
  have ho : CENTER_CX - b.cx ≤ 150 := by unfold CENTER_CX; omega
  have hpan : (50 : ℤ) < LOW_ANGLE := by decide
  have hs : is_parallel (pan_adjust 50 (CENTER_CX - b.cx)) = false :=
    pan_adjust_not_parallel hpan ho
  rw [runFrame_single, finalCmd]
  simp [center_cx_far hx, center_cy_near hcy, check_pan_extreme, hpan,
    sense_area_not_parallel hs]

/-- C3, witness for the amended theorem: pan 50, tilt 90, blob at
(100, 115) with area 12000. -/
theorem C3_pan_low_pivot_right_witness :
    finalCmd (runFrame 50 90 0 [⟨100, 115, 12000⟩]) = some Cmd.pivotRight :=
  C3_pan_low_pivot_right 90 0 ⟨100, 115, 12000⟩ (by decide) (by decide)
    (by decide) (by decide)

/-- C9. On an empty detection list the frame issues exactly the main loop's
`stop()` — both enable lines end low — and everything else is skipped: both
angles and `last_area` are unchanged and no servo write happens. -/
theorem C9_empty_frame (pan tilt lastArea : ℤ) (prior : MotorState) :
    (runFrame pan tilt lastArea []).events = [(Src.mainLoop, Cmd.stop)] ∧
    (runFrame pan tilt lastArea []).pan = pan ∧
    (runFrame pan tilt lastArea []).tilt = tilt ∧
    (runFrame pan tilt lastArea []).lastArea = lastArea ∧
    (runFrame pan tilt lastArea []).panServoWrites = 0 ∧
    (runFrame pan tilt lastArea []).tiltServoWrites = 0 ∧
    (finalMotors prior (runFrame pan tilt lastArea [])).leftEn = false ∧
    (finalMotors prior (runFrame pan tilt lastArea [])).rightEn = false := by
  simp [runFrame, selectBlob, finalMotors, applyCmd]

/-- C10. When the cx error is inside its deadzone no pivot command is issued
that frame, whatever the pan angle; when the cy error is inside its deadzone
the tilt check issues no Reverse that frame, whatever the tilt angle. -/
theorem C10_deadzones_gate_extreme_checks (pan tilt lastArea : ℤ) (b : Blob) :
    (|CENTER_CX - b.cx| < CENTERED_CX_THRESHOLD →
      (runFrame pan tilt lastArea [b]).events.countP
        (fun e => e.2 == Cmd.pivotRight || e.2 == Cmd.pivotLeft) = 0) ∧
    (|CENTER_CY - b.cy| < CENTERED_CY_THRESHOLD →
      (runFrame pan tilt lastArea [b]).events.countP
        (fun e => e.1 == Src.tiltChk && e.2 == Cmd.reverse) = 0) := by
  constructor
  · intro h
    rw [runFrame_single]
    simp only [center_cx_near h]
    rcases center_cy_shape tilt b with h2 | h2 | h2 <;>
      rcases sense_area_shape pan lastArea b with h3 | h3 | h3 | h3 <;>
        simp [h2, h3]
  · intro h
    rw [runFrame_single]
    simp only [center_cy_near h]
    rcases center_cx_shape pan b with h2 | h2 | h2 | h2 <;>
      rcases sense_area_shape (center_cx pan b).1 lastArea b with h3 | h3 | h3 | h3 <;>
        simp [h2, h3]

/-- C10, witness: a centered blob at (150, 115), pan and tilt at 90. -/
theorem C10_deadzones_gate_witness :
    (runFrame 90 90 0 [⟨150, 115, 9000⟩]).events.countP
      (fun e => e.2 == Cmd.pivotRight || e.2 == Cmd.pivotLeft) = 0 :=
  (C10_deadzones_gate_extreme_checks 90 90 0 ⟨150, 115, 9000⟩).1 (by decide)

lemma applyCmd_stop_stop (m : MotorState) :
    applyCmd (applyCmd m Cmd.stop) Cmd.stop = applyCmd m Cmd.stop := rfl

/-- Folding any run of `stop()` commands leaves the pins either untouched
(empty run) or in the stopped configuration. -/
lemma foldl_stops (l : List (Src × Cmd)) (prior : MotorState)
    (h : ∀ e ∈ l, e.2 = Cmd.stop) :
    List.foldl (fun m e => applyCmd m e.2) prior l = prior ∨
    List.foldl (fun m e => applyCmd m e.2) prior l = applyCmd prior Cmd.stop := by
  induction l generalizing prior with
  | nil => exact Or.inl rfl
  | cons e t ih =>
    have he : e.2 = Cmd.stop := h e (List.mem_cons_self e t)
    have ht : ∀ x ∈ t, x.2 = Cmd.stop := fun x hx => h x (List.mem_cons_of_mem e hx)
    simp only [List.foldl_cons, he]
    rcases ih (applyCmd prior Cmd.stop) ht with h1 | h1
    · exact Or.inr h1
    · rw [applyCmd_stop_stop] at h1
      exact Or.inr h1

/-- C4, counterexample. Gate false (pan 50), blob centered, so no check runs
and no command is issued: with the motors still driving forward from an
earlier frame, the frame ends with both enable lines high — not Stop — even
though no extreme override fired. -/
theorem C4_no_default_stop_counterexample :
    is_parallel (runFrame 50 90 0 [⟨150, 115, 9000⟩]).pan = false ∧
    (runFrame 50 90 0 [⟨150, 115, 9000⟩]).events = [] ∧
    finalMotors ⟨false, true, true, true, false, true⟩
        (runFrame 50 90 0 [⟨150, 115, 9000⟩]) =
      ⟨false, true, true, true, false, true⟩ ∧
    (finalMotors ⟨false, true, true, true, false, true⟩
        (runFrame 50 90 0 [⟨150, 115, 9000⟩])).leftEn = true := by
  decide

/-- C4, amended. In a gate-false frame with a selected target every issued
drive command comes from the extreme-avoidance checks (none from the
distance controller); and when no check fires an override — every issued
command is a Stop — the frame ends with the motor pins either unchanged
(nothing was issued) or in the stopped state. -/
theorem C4_gate_false_frame (pan tilt lastArea : ℤ) (b : Blob)
    (prior : MotorState)
    (hg : is_parallel (runFrame pan tilt lastArea [b]).pan = false) :
    (runFrame pan tilt lastArea [b]).events.countP
      (fun e => e.1 == Src.distCtl) = 0 ∧
    ((∀ e ∈ (runFrame pan tilt lastArea [b]).events, e.2 = Cmd.stop) →
      finalMotors prior (runFrame pan tilt lastArea [b]) = prior ∨
      finalMotors prior (runFrame pan tilt lastArea [b]) =
        applyCmd prior Cmd.stop) := by
  constructor
  · rw [runFrame_single] at hg ⊢
    have hs := sense_area_not_parallel hg lastArea b
    rcases center_cx_shape pan b with h1 | h1 | h1 | h1 <;>
      rcases center_cy_shape tilt b with h2 | h2 | h2 <;>
        simp [h1, h2, hs]
  · intro hall
    simpa [finalMotors] using
      foldl_stops (runFrame pan tilt lastArea [b]).events prior hall

/-- C4, witness for the amended theorem: gate-false frame (pan 50, blob
centered at (150, 115)). -/
theorem C4_gate_false_frame_witness :
    (runFrame 50 90 0 [⟨150, 115, 9000⟩]).events.countP
      (fun e => e.1 == Src.distCtl) = 0 :=
  (C4_gate_false_frame 50 90 0 ⟨150, 115, 9000⟩
    ⟨false, true, true, true, false, true⟩ (by decide)).1

lemma center_cx_writes_le (pan : ℤ) (b : Blob) : (center_cx pan b).2.2 ≤ 1 := by
  unfold center_cx
  split_ifs <;> simp

lemma center_cy_writes_le (tilt : ℤ) (b : Blob) : (center_cy tilt b).2.2 ≤ 1 := by
  unfold center_cy
  split_ifs <;> simp

lemma center_cx_len_le (pan : ℤ) (b : Blob) : (center_cx pan b).2.1.length ≤ 1 := by
  rcases center_cx_shape pan b with h | h | h | h <;> simp [h]

lemma center_cy_len_le (tilt : ℤ) (b : Blob) : (center_cy tilt b).2.1.length ≤ 1 := by
  rcases center_cy_shape tilt b with h | h | h <;> simp [h]

lemma sense_area_len_le (pan lastArea : ℤ) (b : Blob) :
    (sense_area pan lastArea b).2.length ≤ 1 := by
  rcases sense_area_shape pan lastArea b with h | h | h | h <;> simp [h]

/-- A frame selects some blob exactly when the list is nonempty. -/
lemma runFrame_some (pan tilt lastArea : ℤ) {blobs : List Blob} {bb : Blob}
    (h : selectBlob blobs = some bb) :
    runFrame pan tilt lastArea blobs =
      ⟨(center_cx pan bb).1, (center_cy tilt bb).1,
        (sense_area (center_cx pan bb).1 lastArea bb).1,
        (center_cx pan bb).2.1 ++ (center_cy tilt bb).2.1 ++
          (sense_area (center_cx pan bb).1 lastArea bb).2,
        (center_cx pan bb).2.2, (center_cy tilt bb).2.2⟩ := by
  rw [runFrame, h]

/-- C8, counterexample. Pan at 50 with the blob off-center in both axes:
the pan check issues PivotRight and the tilt check then issues Stop, so each
motor's pins are written twice in the one frame — the claim's "at most once
per motor" fails. -/
theorem C8_motor_twice_counterexample :
    leftMotorWrites (runFrame 50 90 0 [⟨100, 50, 9000⟩]) = 2 ∧
    rightMotorWrites (runFrame 50 90 0 [⟨100, 50, 9000⟩]) = 2 ∧
    ¬ leftMotorWrites (runFrame 50 90 0 [⟨100, 50, 9000⟩]) ≤ 1 := by
  decide

/-- C8, amended. Per frame, each servo angle is written at most once, and
each motor's pins are written once per issued drive command, of which there
are at most three (pan check, tilt check, distance controller). -/
theorem C8_per_frame_command_counts (pan tilt lastArea : ℤ)
    (blobs : List Blob) :
    (runFrame pan tilt lastArea blobs).panServoWrites ≤ 1 ∧
    (runFrame pan tilt lastArea blobs).tiltServoWrites ≤ 1 ∧
    leftMotorWrites (runFrame pan tilt lastArea blobs) ≤ 3 ∧
    rightMotorWrites (runFrame pan tilt lastArea blobs) ≤ 3 := by
  cases blobs with
  | nil => simp [runFrame, selectBlob, leftMotorWrites, rightMotorWrites]
  | cons b rest =>
    rw [runFrame_some pan tilt lastArea (rfl : selectBlob (b :: rest) = some _)]
    refine ⟨center_cx_writes_le pan _, center_cy_writes_le tilt _, ?_, ?_⟩ <;>
    · simp only [leftMotorWrites, rightMotorWrites, List.length_append]
      have h1 := center_cx_len_le pan (List.foldl
        (fun acc x => if acc.area < x.area then x else acc) b (b :: rest))
      have h2 := center_cy_len_le tilt (List.foldl
        (fun acc x => if acc.area < x.area then x else acc) b (b :: rest))
      have h3 := sense_area_len_le (center_cx pan (List.foldl
        (fun acc x => if acc.area < x.area then x else acc) b (b :: rest))).1
        lastArea (List.foldl
        (fun acc x => if acc.area < x.area then x else acc) b (b :: rest))
      omega

end MVR
